import Mathlib

/-!
Verification of the ProWaveDAQ acquisition pipeline.

Shallow embedding of the Python sources:
  * `src/prowavedaq.py`  — Modbus protocol driver (`ProWaveDAQ`)
  * `src/csv_writer.py`  — segmented durable writer (`CSVWriter`)
  * `src/main.py`        — orchestration (`collection_loop`, control routes)

Machine 16-bit words are modelled as `Nat` (transport) / `Int` (signed
decode); Python floats produced by the pipeline are ratios of integers
with power-of-two denominators, so they are embedded exactly as `ℚ`.
Wall-clock instants are likewise embedded as `ℚ` seconds.
-/

namespace ProWave

/-! ### Driver constants (`ProWaveDAQ` class attributes) -/

/-- `ProWaveDAQ.CHANNEL_COUNT = 3` (X, Y, Z). -/
def CHANNEL_COUNT : ℕ := 3

/-- `ProWaveDAQ.MAX_FIFO_SAMPLES = 41`. -/
def MAX_FIFO_SAMPLES : ℕ := 41

/-- `ProWaveDAQ.MAX_DATA_WORDS = MAX_FIFO_SAMPLES * CHANNEL_COUNT = 123`. -/
def MAX_DATA_WORDS : ℕ := MAX_FIFO_SAMPLES * CHANNEL_COUNT

/-- Capacity of `ProWaveDAQ.data_queue` (`queue.Queue(maxsize=1000)`). -/
def QUEUE_MAXSIZE : ℕ := 1000

/-! ### Raw-word conversion (`ProWaveDAQ._convert_raw_to_float_samples`) -/

/-- Two's-complement decode of one 16-bit transport word:
`signed = w if w < 32768 else w - 65536` (prowavedaq.py line 491). -/
def signedOfWord (w : ℕ) : ℤ :=
  if w < 32768 then (w : ℤ) else (w : ℤ) - 65536

/-- `ProWaveDAQ._convert_raw_to_float_samples` (prowavedaq.py lines 450-495):
empty input gives `[]`; otherwise keep only the first
`(len // CHANNEL_COUNT) * CHANNEL_COUNT` words (complete XYZ groups) and map
each word through two's-complement decode and division by `8192.0`. -/
def convert_raw_to_float_samples (raw : List ℕ) : List ℚ :=
  if raw = [] then []
  else
    let sampleWordCount := raw.length / CHANNEL_COUNT * CHANNEL_COUNT
    if sampleWordCount = 0 then []
    else (raw.take sampleWordCount).map (fun w => (signedOfWord w : ℚ) / 8192)

/-! ### Request sizing (`ProWaveDAQ._read_raw_block`) -/

/-- Number of data words `_read_raw_block` asks the device for
(prowavedaq.py line 425): `data_len = max(0, min(data_len, MAX_DATA_WORDS))`.
The argument is the FIFO length reported by `_read_fifo_length`, already a
natural number, so the `max 0` clamp is the identity here. -/
def read_raw_block_count (dataLen : ℕ) : ℕ :=
  min dataLen MAX_DATA_WORDS

/-! ### Hand-off queue (`ProWaveDAQ.data_queue` plus the push in `_read_loop`) -/

/-- The enqueue step of `_read_loop` (prowavedaq.py lines 567-577):
`put_nowait`; on `queue.Full` (queue length at `QUEUE_MAXSIZE`), one
`get_nowait` evicts the oldest batch, then the new batch is inserted. -/
def queue_put (q : List (List ℚ)) (b : List ℚ) : List (List ℚ) :=
  if q.length < QUEUE_MAXSIZE then q ++ [b] else q.drop 1 ++ [b]

/-! ### Driver object state (`ProWaveDAQ.__init__` fields used by the claims) -/

/-- The `ProWaveDAQ` instance fields relevant to reading and hand-off:
`reading`, `counter`, `remaining_data` (legacy, always cleared), `data_queue`
(modelled as the list of enqueued batches, oldest first), and whether a
Modbus client is held (`client is not None`). -/
structure DAQ where
  reading : Bool
  counter : ℕ
  remainingData : List ℤ
  dataQueue : List (List ℚ)
  connected : Bool

/-- `ProWaveDAQ.stop_reading` (prowavedaq.py lines 197-221): clears the
reading flag (joining the thread), zeroes the batch counter, empties the
legacy `remaining_data` buffer, drains `data_queue` with `get_nowait` until
empty, and closes the Modbus connection. -/
def stop_reading (_d : DAQ) : DAQ :=
  { reading := false
    counter := 0
    remainingData := []
    dataQueue := []
    connected := false }

/-- `ProWaveDAQ.get_data` (prowavedaq.py lines 226-236): non-blocking
`get_nowait`; returns the oldest batch and the dequeued state, or `[]` when
the queue is empty. -/
def DAQ.get_data (d : DAQ) : List ℚ × DAQ :=
  match d.dataQueue with
  | [] => ([], d)
  | b :: rest => (b, { d with dataQueue := rest })

/-- `ProWaveDAQ.get_counter` (prowavedaq.py lines 252-254). -/
def DAQ.get_counter (d : DAQ) : ℕ :=
  d.counter

/-! ### Device model and `init_devices` -/

/-- Modbus register addresses (`ProWaveDAQ` class attributes). -/
def REG_SAMPLE_RATE : ℕ := 0x01

/-- `ProWaveDAQ.REG_FIFO_LEN = 0x02`. -/
def REG_FIFO_LEN : ℕ := 0x02

/-- `ProWaveDAQ.REG_DATA_START = 0x03`. -/
def REG_DATA_START : ℕ := 0x03

/-- `ProWaveDAQ.REG_CHIP_ID = 0x80`. -/
def REG_CHIP_ID : ℕ := 0x80

/-- Device-side state: the sample backlog buffered in the device FIFO
(in 16-bit words), the chip-ID registers, and the sample-rate register.
Reading input registers at `REG_DATA_START` pops words from the FIFO;
reads at other addresses leave the backlog untouched. -/
structure Device where
  fifoBacklog : ℕ
  chipId : List ℕ
  sampleRateReg : ℕ

/-- Effect of one `read_input_registers(address, count)` transaction on the
device: only a read of the data registers (address `REG_DATA_START`) drains
the FIFO backlog. -/
def deviceReadInput (dev : Device) (addr count : ℕ) : Device :=
  if addr = REG_DATA_START then
    { dev with fifoBacklog := dev.fifoBacklog - count }
  else dev

/-- Effect of one `write_register(address, value)` transaction. -/
def deviceWrite (dev : Device) (addr value : ℕ) : Device :=
  if addr = REG_SAMPLE_RATE then { dev with sampleRateReg := value } else dev

/-- `ProWaveDAQ.init_devices` (prowavedaq.py lines 121-168), device-visible
part after the INI file is parsed and `_connect` succeeds: it issues exactly
one input-register read — `_read_chip_id`, 3 registers at `REG_CHIP_ID` —
and one register write — `_set_sample_rate` at `REG_SAMPLE_RATE`. It returns
the resulting device state together with the list of
`(address, count)` input-register read requests issued. -/
def init_devices (sampleRate : ℕ) (dev : Device) : Device × List (ℕ × ℕ) :=
  let dev1 := deviceReadInput dev REG_CHIP_ID 3
  let dev2 := deviceWrite dev1 REG_SAMPLE_RATE sampleRate
  (dev2, [(REG_CHIP_ID, 3)])

/-! ### Poll loop (`ProWaveDAQ._read_loop`) -/

/-- `max_consecutive_errors = 5` (prowavedaq.py line 521). -/
def MAX_CONSECUTIVE_ERRORS : ℕ := 5

/-- Outcome of one iteration of `_read_loop`, as seen from the loop body:
reconnection failure, an empty FIFO report, a failed raw-block read, a
successful raw-block read, or an unexpected exception. -/
inductive PollEvent where
  | connectFail : PollEvent
  | fifoEmpty : PollEvent
  | readFail : PollEvent
  | readOk : List ℕ → PollEvent
  | exn : PollEvent

/-- Thread-local state of `_read_loop` together with the instance fields it
mutates (`reading`, `counter`, `data_queue`). -/
structure LoopState where
  reading : Bool
  errors : ℕ
  counter : ℕ
  dataQueue : List (List ℚ)

/-- One iteration of `_read_loop` (prowavedaq.py lines 525-594). The loop
body runs only while `reading` is set; on `break` the trailing
`self.reading = False` makes the stop observable. A successful raw read
resets `consecutive_errors` to 0 before conversion; a non-empty converted
batch is enqueued (drop-oldest) and counted. -/
def poll_step (s : LoopState) (e : PollEvent) : LoopState :=
  if ¬ s.reading then s
  else
    match e with
    | .connectFail =>
        let n := s.errors + 1
        if MAX_CONSECUTIVE_ERRORS ≤ n then
          { s with errors := n, reading := false }
        else { s with errors := n }
    | .fifoEmpty => s
    | .readFail =>
        let n := s.errors + 1
        if MAX_CONSECUTIVE_ERRORS ≤ n then
          { s with errors := n, reading := false }
        else { s with errors := n }
    | .readOk raw =>
        let s1 := { s with errors := 0 }
        let samples := convert_raw_to_float_samples raw
        if samples = [] then s1
        else
          { s1 with
            dataQueue := queue_put s1.dataQueue samples
            counter := s1.counter + 1 }
    | .exn =>
        let n := s.errors + 1
        if MAX_CONSECUTIVE_ERRORS ≤ n then
          { s with errors := n, reading := false }
        else { s with errors := n }

/-- State at `_read_loop` entry: `start_reading` set `counter = 0`,
`reading = True`, and the loop initialises `consecutive_errors = 0`.
The queue contents at entry are arbitrary, here empty as after
`start_reading` on a fresh instance. -/
def read_loop_init : LoopState :=
  { reading := true, errors := 0, counter := 0, dataQueue := [] }

/-! ### Durable writer (`csv_writer.py`, class `CSVWriter`) -/

/-- `CSVWriter` state: configuration from `__init__`, the global sample
clock (`global_start_time` as ℚ seconds and `global_sample_count`), and the
rows written so far — `files` holds the rows of each closed segment file in
order, `currentRows` the rows of the open file. A row is its timestamp
(ℚ seconds) and its channel values. `isOpen` models `self.writer` being a
live `csv.writer` (None after `close`). -/
structure CSVWriter where
  channels : ℕ
  sampleRate : ℕ
  fileCounter : ℕ
  globalStart : ℚ
  globalSampleCount : ℕ
  files : List (List (ℚ × List ℚ))
  currentRows : List (ℚ × List ℚ)
  isOpen : Bool

/-- `CSVWriter.__init__` (csv_writer.py lines 33-52): counter starts at 1,
the global sample clock starts at 0 samples from the construction instant,
and `_create_new_file` opens the first (empty) segment. -/
def CSVWriter.init (channels sampleRate : ℕ) (start : ℚ) : CSVWriter :=
  { channels := channels
    sampleRate := sampleRate
    fileCounter := 1
    globalStart := start
    globalSampleCount := 0
    files := []
    currentRows := []
    isOpen := true }

/-- Timestamp the writer computes for global sample index `k`
(csv_writer.py lines 98-105): `global_start_time + k * (1.0 / sample_rate)`
seconds. Exact in ℚ. -/
def rowTimestamp (start : ℚ) (sampleRate : ℕ) (k : ℕ) : ℚ :=
  start + (k : ℚ) * (1 / (sampleRate : ℚ))

/-- `CSVWriter.add_data_block` (csv_writer.py lines 90-131): no-op when the
writer is closed or the data is empty (and when `sample_rate` is 0, where
Python's `1.0 / sample_rate` raises before any row is built and the
exception handler swallows it). Otherwise one row per started group of
`channels` values — row `r` covers `data[r*channels : (r+1)*channels]`,
padded with `0.0` — gets the timestamp for global index
`global_sample_count + r`, and the global sample count advances by the
number of rows (one increment per row, segment boundaries never reset
it). -/
def CSVWriter.add_data_block (w : CSVWriter) (data : List ℚ) : CSVWriter :=
  if w.isOpen = false ∨ data = [] then w
  else if w.sampleRate = 0 then w
  else
    let numRows := (data.length + w.channels - 1) / w.channels
    let newRows := (List.range numRows).map (fun r =>
      (rowTimestamp w.globalStart w.sampleRate (w.globalSampleCount + r),
        (List.range w.channels).map (fun j =>
          if r * w.channels + j < data.length
          then data.getD (r * w.channels + j) 0 else 0)))
    { w with
      currentRows := w.currentRows ++ newRows
      globalSampleCount := w.globalSampleCount + numRows }

/-- `CSVWriter.update_filename` (csv_writer.py lines 133-145): flush and
close the current file, bump `file_counter`, create the next file. The
global sample clock is untouched. -/
def CSVWriter.update_filename (w : CSVWriter) : CSVWriter :=
  { w with
    files := w.files ++ [w.currentRows]
    currentRows := []
    fileCounter := w.fileCounter + 1
    isOpen := true }

/-- All rows the writer has emitted, in emission order: closed files first,
then the open file. -/
def CSVWriter.allRows (w : CSVWriter) : List (ℚ × List ℚ) :=
  w.files.flatten ++ w.currentRows

/-- An interaction with the writer, as performed by `collection_loop`. -/
inductive CSVOp where
  | add : List ℚ → CSVOp
  | rotate : CSVOp

/-- Dispatch one writer interaction. -/
def csv_apply (w : CSVWriter) : CSVOp → CSVWriter
  | .add data => w.add_data_block data
  | .rotate => w.update_filename

/-! ### Orchestration globals and control surface (`main.py`) -/

/-- `DATA_REQUEST_TIMEOUT = 5.0` (main.py line 42). -/
def DATA_REQUEST_TIMEOUT : ℚ := 5

/-- The module-level globals of `main.py` that the control routes and the
collection loop mutate. `hasDaq` / `hasWriter` model `daq_instance` /
`csv_writer_instance` being non-None. -/
structure AppState where
  isCollecting : Bool
  realtimeData : List ℚ
  dataCounter : ℕ
  currentDataSize : ℤ
  targetSize : ℤ
  lastDataRequestTime : ℚ
  hasDaq : Bool
  hasWriter : Bool

/-- `update_realtime_data` (main.py lines 45-61): the preview buffer is
extended (and trimmed to its last 10000 values) only when a `/data` request
happened less than `DATA_REQUEST_TIMEOUT` seconds ago; the data counter is
always advanced by the batch length. `now` is the current wall-clock
instant. -/
def update_realtime_data (now : ℚ) (st : AppState) (data : List ℚ) :
    AppState :=
  let hasActiveConnection := now - st.lastDataRequestTime < DATA_REQUEST_TIMEOUT
  if hasActiveConnection then
    let rd := st.realtimeData ++ data
    let rd := if 10000 < rd.length then rd.drop (rd.length - 10000) else rd
    { st with realtimeData := rd, dataCounter := st.dataCounter + data.length }
  else
    { st with dataCounter := st.dataCounter + data.length }

/-- The `/data` route (main.py lines 83-97): records the request instant in
`last_data_request_time` and returns a snapshot of the preview buffer and
the counter. -/
def get_data_route (now : ℚ) (st : AppState) : AppState × (List ℚ × ℕ) :=
  ({ st with lastDataRequestTime := now }, (st.realtimeData, st.dataCounter))

/-- External inputs of `start_collection` that the route reads on its
success path: whether `Master.ini` has a `SaveUnit` section, the configured
segment seconds, and the DAQ sample rate. -/
structure StartEnv where
  masterHasSaveUnit : Bool
  saveUnitSecond : ℤ
  daqSampleRate : ℤ

/-- `start_collection` (main.py lines 154-224), with device and file
operations assumed to succeed (the exception path is outside the rejection
claims): reject when already collecting; reject when the label is missing
(`label = ""`, as `data.get('label', '')` yields for an absent field) —
both before any state is touched. Only then reset the preview state, read
the configuration, compute `target_size = save_unit * (sample_rate * 3)`,
create the DAQ and the writer, and set the collecting flag. -/
def start_collection (env : StartEnv) (label : String) (st : AppState) :
    (Bool × String) × AppState :=
  if st.isCollecting then ((false, "資料收集已在執行中"), st)
  else if label = "" then ((false, "請提供資料標籤"), st)
  else
    let st1 := { st with
      realtimeData := []
      dataCounter := 0
      currentDataSize := 0
      lastDataRequestTime := 0 }
    if env.masterHasSaveUnit = false then ((false, "無法讀取 Master.ini"), st1)
    else
      ((true, "資料收集已啟動"),
        { st1 with
          hasDaq := true
          targetSize := env.saveUnitSecond * (env.daqSampleRate * 3)
          hasWriter := true
          isCollecting := true })

/-- `stop_collection` (main.py lines 227-249): reject when not collecting,
before any state is touched; otherwise clear the flag, stop the DAQ and
close the writer. -/
def stop_collection (st : AppState) : (Bool × String) × AppState :=
  if st.isCollecting = false then ((false, "資料收集未在執行中"), st)
  else ((true, "資料收集已停止"), { st with isCollecting := false })

/-! ### Segmentation logic of `collection_loop` (main.py lines 343-399) -/

/-- Python slice `l[:k]` for an `int` index `k` (negative indexes count from
the end). -/
def pySliceTo (l : List ℚ) (k : ℤ) : List ℚ :=
  if k < 0 then l.take ((l.length : ℤ) + k).toNat else l.take k.toNat

/-- Python slice `l[k:]` for an `int` index `k` (negative indexes count from
the end). -/
def pySliceFrom (l : List ℚ) (k : ℤ) : List ℚ :=
  if k < 0 then l.drop ((l.length : ℤ) + k).toNat else l.drop k.toNat

/-- The flattened values handed to `csv_writer_instance` per segment file:
each `add_data_block` call appends to the open file, each `update_filename`
closes it. -/
structure SegFiles where
  closed : List (List ℚ)
  current : List ℚ

/-- `csv_writer_instance.add_data_block(b)` as seen by segmentation. -/
def segWrite (f : SegFiles) (b : List ℚ) : SegFiles :=
  { f with current := f.current ++ b }

/-- `csv_writer_instance.update_filename()` as seen by segmentation. -/
def segRotate (f : SegFiles) : SegFiles :=
  { closed := f.closed ++ [f.current], current := [] }

/-- The inner rotation loop of `collection_loop` (main.py lines 372-379):
`while current_data_size >= target_size:` write `data[:empty_space]`, rotate
the file, and subtract `target_size` — the slice bound `empty_space` is
**not** recomputed inside the loop. For `target_size <= 0` the Python loop
never terminates; the model covers the terminating executions by requiring
`0 < targetSize` to iterate. -/
def seg_loop (targetSize emptySpace : ℤ) (data : List ℚ) (f : SegFiles)
    (cds : ℤ) : SegFiles × ℤ :=
  if _h : 0 < targetSize ∧ targetSize ≤ cds then
    seg_loop targetSize emptySpace data
      (segRotate (segWrite f (pySliceTo data emptySpace))) (cds - targetSize)
  else (f, cds)
termination_by cds.toNat
decreasing_by
  omega

/-- The per-batch body of `collection_loop` (main.py lines 354-389), CSV
part: add the batch length to `current_data_size`; below the threshold write
the whole batch; otherwise compute `empty_space`, run the rotation loop,
then write `data[empty_space:]` if `pending = len(data) - empty_space` is
non-zero and set `current_data_size` to `pending` (else to 0). The state is
the pair (files written so far, `current_data_size`). -/
def collection_loop_batch (targetSize : ℤ) (st : SegFiles × ℤ)
    (data : List ℚ) : SegFiles × ℤ :=
  let n : ℤ := data.length
  let cds : ℤ := st.2 + n
  if cds < targetSize then (segWrite st.1 data, cds)
  else
    let dataActualSize := n
    let emptySpace := targetSize - (cds - dataActualSize)
    let p := seg_loop targetSize emptySpace data st.1 cds
    let pending := dataActualSize - emptySpace
    if pending ≠ 0 then (segWrite p.1 (pySliceFrom data emptySpace), pending)
    else (p.1, 0)

/-- Total flattened values written across all segment files. -/
def segTotal (f : SegFiles) : ℕ :=
  (f.closed.map List.length).sum + f.current.length

end ProWave

namespace ProWave

/-! ### Claim theorems for conversion and queue -/

/-- `_convert_raw_to_float_samples` equals a truncate-then-map: the early
returns for empty input and zero complete groups coincide with taking zero
words. -/
lemma convert_raw_eq_take_map (raw : List ℕ) :
    convert_raw_to_float_samples raw
      = (raw.take (raw.length / CHANNEL_COUNT * CHANNEL_COUNT)).map
          (fun w => (signedOfWord w : ℚ) / 8192) := by
  unfold convert_raw_to_float_samples
  by_cases hraw : raw = []
  · subst hraw
    simp
  · simp only [if_neg hraw]
    by_cases hcz : raw.length / CHANNEL_COUNT * CHANNEL_COUNT = 0
    · simp [hcz]
    · simp [hcz]

/-- C5: `_convert_raw_to_float_samples` emits exactly
`(n / 3) * 3` values; the `i`-th output is the two's-complement signed value
of the `i`-th input word divided by `8192.0`; and raw word `40000` decodes to
signed `-25536`, physical `-3.1171875`. -/
theorem convert_raw_spec (raw : List ℕ) (i : ℕ)
    (h : i < raw.length / CHANNEL_COUNT * CHANNEL_COUNT) :
    (convert_raw_to_float_samples raw).length
        = raw.length / CHANNEL_COUNT * CHANNEL_COUNT
      ∧ (convert_raw_to_float_samples raw).getD i 0
        = (signedOfWord (raw.getD i 0) : ℚ) / 8192
      ∧ signedOfWord 40000 = -25536
      ∧ ((signedOfWord 40000 : ℚ) / 8192 = -3.1171875) := by
  have hc : raw.length / CHANNEL_COUNT * CHANNEL_COUNT ≤ raw.length :=
    Nat.div_mul_le_self _ _
  have hi : i < raw.length := lt_of_lt_of_le h hc
  refine ⟨?_, ?_, by decide, by norm_num [signedOfWord]⟩
  · rw [convert_raw_eq_take_map]
    simp [List.length_take]
    omega
  · rw [convert_raw_eq_take_map]
    have hlen : i < ((raw.take (raw.length / CHANNEL_COUNT * CHANNEL_COUNT)).map
        (fun w => (signedOfWord w : ℚ) / 8192)).length := by
      simp [List.length_take]
      omega
    rw [List.getD_eq_getElem _ _ hlen, List.getElem_map, List.getElem_take,
      List.getD_eq_getElem _ _ hi]

/-- Witness for C5 at `raw = [40000, 0, 0]`, `i = 0`. -/
theorem convert_raw_spec_witness :
    (convert_raw_to_float_samples [40000, 0, 0]).length
        = [40000, 0, 0].length / CHANNEL_COUNT * CHANNEL_COUNT
      ∧ (convert_raw_to_float_samples [40000, 0, 0]).getD 0 0
        = (signedOfWord ([40000, 0, 0].getD 0 0) : ℚ) / 8192
      ∧ signedOfWord 40000 = -25536
      ∧ ((signedOfWord 40000 : ℚ) / 8192 = -3.1171875) :=
  convert_raw_spec [40000, 0, 0] 0 (by decide)

/-- C6: the hand-off queue never exceeds its capacity of 1000 batches, and a
push at capacity evicts exactly the single oldest batch: the result is the
old queue minus its head, with the new batch at the tail (FIFO order among
retained batches preserved), size unchanged at capacity, new batch present. -/
theorem queue_put_drop_oldest (q : List (List ℚ)) (b : List ℚ)
    (h : q.length ≤ QUEUE_MAXSIZE) :
    (queue_put q b).length ≤ QUEUE_MAXSIZE
      ∧ (q.length = QUEUE_MAXSIZE →
          queue_put q b = q.drop 1 ++ [b]
            ∧ (queue_put q b).length = QUEUE_MAXSIZE
            ∧ b ∈ queue_put q b) := by
  have hQ : QUEUE_MAXSIZE = 1000 := rfl
  constructor
  · by_cases hlt : q.length < QUEUE_MAXSIZE
    · simp only [queue_put, if_pos hlt, List.length_append, List.length_singleton]
      omega
    · simp only [queue_put, if_neg hlt, List.length_append, List.length_singleton,
        List.length_drop]
      omega
  · intro hfull
    have hlt : ¬ q.length < QUEUE_MAXSIZE := by omega
    refine ⟨by simp [queue_put, hlt], ?_, ?_⟩
    · simp only [queue_put, if_neg hlt, List.length_append, List.length_singleton,
        List.length_drop]
      omega
    · simp [queue_put, hlt]

/-- Witness for C6 at a queue of 1000 empty batches. -/
theorem queue_put_drop_oldest_witness :
    (queue_put (List.replicate 1000 []) [5]).length ≤ QUEUE_MAXSIZE
      ∧ ((List.replicate 1000 ([] : List ℚ)).length = QUEUE_MAXSIZE →
          queue_put (List.replicate 1000 []) [5]
              = (List.replicate 1000 ([] : List ℚ)).drop 1 ++ [[5]]
            ∧ (queue_put (List.replicate 1000 []) [5]).length = QUEUE_MAXSIZE
            ∧ [5] ∈ queue_put (List.replicate 1000 []) [5]) :=
  queue_put_drop_oldest (List.replicate 1000 []) [5]
    (by rw [List.length_replicate]; decide)

/-! ### Claim theorems for `stop_reading`, `init_devices`, `_read_loop` -/

/-- C9: after `stop_reading`, the hand-off queue is empty and the batch
counter is zero; a subsequent `get_data` returns the empty list and
`get_counter` returns 0 — undelivered batches are discarded. -/
theorem stop_reading_clears (d : DAQ) :
    (stop_reading d).dataQueue = []
      ∧ ((stop_reading d).get_data).1 = []
      ∧ ((stop_reading d).get_data).2 = stop_reading d
      ∧ (stop_reading d).get_counter = 0 := by
  simp [stop_reading, DAQ.get_data, DAQ.get_counter]

/-- C2 counterexample: a device holding a backlog of 10000 words — far above
any small threshold such as `MAX_DATA_WORDS = 123` — passes through
`init_devices` completely untouched: the backlog is still 10000 and the
initialisation issued no read of the FIFO data registers at all, so no
startup flush takes place. -/
theorem init_devices_no_flush_cex :
    (init_devices 7812 ⟨10000, [0, 0, 0], 0⟩).1.fifoBacklog = 10000
      ∧ ((init_devices 7812 ⟨10000, [0, 0, 0], 0⟩).2.filter
          (fun r => r.1 == REG_DATA_START)) = []
      ∧ ¬ (init_devices 7812 ⟨10000, [0, 0, 0], 0⟩).1.fifoBacklog
          < MAX_DATA_WORDS :=
  ⟨rfl, rfl, by decide⟩

/-- C2 amended: `init_devices` performs no startup flush. Its only device
interactions after connecting are the chip-ID read (3 registers at `0x80`)
and the sample-rate register write; the device's buffered backlog is left
exactly as it was. -/
theorem init_devices_preserves_backlog (sampleRate : ℕ) (dev : Device) :
    (init_devices sampleRate dev).1.fifoBacklog = dev.fifoBacklog
      ∧ (init_devices sampleRate dev).2 = [(REG_CHIP_ID, 3)]
      ∧ REG_CHIP_ID ≠ REG_DATA_START
      ∧ REG_CHIP_ID ≠ REG_FIFO_LEN := by
  refine ⟨?_, rfl, by decide, by decide⟩
  simp [init_devices, deviceReadInput, deviceWrite, REG_CHIP_ID,
    REG_DATA_START, REG_SAMPLE_RATE]

/-- The `_read_loop` invariant: the consecutive-error counter never exceeds
`MAX_CONSECUTIVE_ERRORS`, and while the loop is still running it is strictly
below it. -/
lemma poll_step_inv (s : LoopState) (e : PollEvent)
    (h1 : s.errors ≤ MAX_CONSECUTIVE_ERRORS)
    (h2 : s.reading = true → s.errors < MAX_CONSECUTIVE_ERRORS) :
    (poll_step s e).errors ≤ MAX_CONSECUTIVE_ERRORS
      ∧ ((poll_step s e).reading = true →
          (poll_step s e).errors < MAX_CONSECUTIVE_ERRORS) := by
  have hM : MAX_CONSECUTIVE_ERRORS = 5 := rfl
  by_cases hr : s.reading = true
  · have he := h2 hr
    cases e with
    | connectFail =>
        by_cases h5 : MAX_CONSECUTIVE_ERRORS ≤ s.errors + 1 <;>
          simp [poll_step, hr, h5] <;> omega
    | fifoEmpty =>
        simp [poll_step, hr]
        omega
    | readFail =>
        by_cases h5 : MAX_CONSECUTIVE_ERRORS ≤ s.errors + 1 <;>
          simp [poll_step, hr, h5] <;> omega
    | readOk raw =>
        by_cases hs : convert_raw_to_float_samples raw = [] <;>
          simp [poll_step, hr, hs] <;> omega
    | exn =>
        by_cases h5 : MAX_CONSECUTIVE_ERRORS ≤ s.errors + 1 <;>
          simp [poll_step, hr, h5] <;> omega
  · have hstep : poll_step s e = s := by
      simp [poll_step, hr]
    rw [hstep]
    exact ⟨h1, h2⟩

/-- The invariant holds along any event trace from the loop-entry state. -/
lemma poll_foldl_inv (es : List PollEvent) (s : LoopState)
    (h1 : s.errors ≤ MAX_CONSECUTIVE_ERRORS)
    (h2 : s.reading = true → s.errors < MAX_CONSECUTIVE_ERRORS) :
    (es.foldl poll_step s).errors ≤ MAX_CONSECUTIVE_ERRORS
      ∧ ((es.foldl poll_step s).reading = true →
          (es.foldl poll_step s).errors < MAX_CONSECUTIVE_ERRORS) := by
  induction es generalizing s with
  | nil => exact ⟨h1, h2⟩
  | cons e es ih =>
      obtain ⟨g1, g2⟩ := poll_step_inv s e h1 h2
      exact ih (poll_step s e) g1 g2

/-- C7: along any trace of `_read_loop` iterations, the consecutive-error
counter never exceeds 5; whenever it reaches 5 the loop has terminated with
the reading flag false (the stopped state is observable); and while the loop
is running, a successful raw read resets the counter to zero. -/
theorem read_loop_error_bound (es : List PollEvent) (raw : List ℕ)
    (hconv : convert_raw_to_float_samples raw ≠ []) :
    (es.foldl poll_step read_loop_init).errors ≤ MAX_CONSECUTIVE_ERRORS
      ∧ (MAX_CONSECUTIVE_ERRORS ≤ (es.foldl poll_step read_loop_init).errors →
          (es.foldl poll_step read_loop_init).reading = false)
      ∧ ((es.foldl poll_step read_loop_init).reading = true →
          (poll_step (es.foldl poll_step read_loop_init)
            (.readOk raw)).errors = 0) := by
  obtain ⟨g1, g2⟩ := poll_foldl_inv es read_loop_init
    (by simp [read_loop_init, MAX_CONSECUTIVE_ERRORS])
    (by simp [read_loop_init, MAX_CONSECUTIVE_ERRORS])
  refine ⟨g1, ?_, ?_⟩
  · intro h5
    by_cases hr : (es.foldl poll_step read_loop_init).reading = true
    · exact absurd (g2 hr) (by omega)
    · simp_all
  · intro hr
    simp [poll_step, hr, hconv]

/-- Witness for C7 on the trace: four read failures, one successful read
(resetting the counter), then five more failures stopping the loop. -/
theorem read_loop_error_bound_witness :
    (([.readFail, .readFail, .readFail, .readFail, .readOk [1, 2, 3],
        .readFail, .readFail, .readFail, .readFail,
        .readFail] : List PollEvent).foldl poll_step read_loop_init).errors
        ≤ MAX_CONSECUTIVE_ERRORS
      ∧ (MAX_CONSECUTIVE_ERRORS ≤
          (([.readFail, .readFail, .readFail, .readFail, .readOk [1, 2, 3],
            .readFail, .readFail, .readFail, .readFail,
            .readFail] : List PollEvent).foldl poll_step read_loop_init).errors →
          (([.readFail, .readFail, .readFail, .readFail, .readOk [1, 2, 3],
            .readFail, .readFail, .readFail, .readFail,
            .readFail] : List PollEvent).foldl poll_step read_loop_init).reading
            = false)
      ∧ ((([.readFail, .readFail, .readFail, .readFail, .readOk [1, 2, 3],
            .readFail, .readFail, .readFail, .readFail,
            .readFail] : List PollEvent).foldl poll_step read_loop_init).reading
            = true →
          (poll_step (([.readFail, .readFail, .readFail, .readFail,
              .readOk [1, 2, 3], .readFail, .readFail, .readFail, .readFail,
              .readFail] : List PollEvent).foldl poll_step read_loop_init)
            (.readOk [40000, 0, 0])).errors = 0) :=
  read_loop_error_bound
    [.readFail, .readFail, .readFail, .readFail, .readOk [1, 2, 3],
      .readFail, .readFail, .readFail, .readFail, .readFail]
    [40000, 0, 0] (by decide)

/-! ### Claim theorem for the writer's global sample clock -/

/-- `add_data_block` never changes the writer's configuration fields. -/
lemma add_data_block_pres (w : CSVWriter) (data : List ℚ) :
    (w.add_data_block data).sampleRate = w.sampleRate
      ∧ (w.add_data_block data).globalStart = w.globalStart := by
  unfold CSVWriter.add_data_block
  split
  · exact ⟨rfl, rfl⟩
  · split
    · exact ⟨rfl, rfl⟩
    · exact ⟨rfl, rfl⟩

/-- One writer interaction preserves the timestamp ledger: the emitted rows'
timestamps are exactly the clock formula at indices `0 .. count - 1`. -/
lemma csv_apply_inv (rate : ℕ) (start : ℚ) (w : CSVWriter) (op : CSVOp)
    (hs : w.sampleRate = rate) (hg : w.globalStart = start)
    (hrows : w.allRows.map Prod.fst
      = (List.range w.globalSampleCount).map (rowTimestamp start rate)) :
    (csv_apply w op).sampleRate = rate
      ∧ (csv_apply w op).globalStart = start
      ∧ (csv_apply w op).allRows.map Prod.fst
        = (List.range (csv_apply w op).globalSampleCount).map
            (rowTimestamp start rate) := by
  cases op with
  | rotate =>
      refine ⟨hs, hg, ?_⟩
      simp only [csv_apply, CSVWriter.update_filename, CSVWriter.allRows] at hrows ⊢
      simpa using hrows
  | add data =>
      have hpres := add_data_block_pres w data
      refine ⟨hpres.1.trans hs, hpres.2.trans hg, ?_⟩
      show (w.add_data_block data).allRows.map Prod.fst
        = (List.range (w.add_data_block data).globalSampleCount).map
            (rowTimestamp start rate)
      by_cases h1 : w.isOpen = false ∨ data = []
      · have hw : w.add_data_block data = w := by
          unfold CSVWriter.add_data_block
          rw [if_pos h1]
        rw [hw]
        exact hrows
      · by_cases h2 : w.sampleRate = 0
        · have hw : w.add_data_block data = w := by
            unfold CSVWriter.add_data_block
            rw [if_neg h1, if_pos h2]
          rw [hw]
          exact hrows
        · simp only [CSVWriter.add_data_block, if_neg h1, if_neg h2,
            CSVWriter.allRows] at hrows ⊢
          rw [List.range_add, ← List.append_assoc, List.map_append, hrows,
            List.map_append, List.map_map, List.map_map]
          simp [hs, hg, Function.comp]

/-- The ledger invariant holds along any interaction trace. -/
lemma csv_foldl_inv (ops : List CSVOp) (rate : ℕ) (start : ℚ) (w : CSVWriter)
    (hs : w.sampleRate = rate) (hg : w.globalStart = start)
    (hrows : w.allRows.map Prod.fst
      = (List.range w.globalSampleCount).map (rowTimestamp start rate)) :
    (ops.foldl csv_apply w).allRows.map Prod.fst
      = (List.range (ops.foldl csv_apply w).globalSampleCount).map
          (rowTimestamp start rate) := by
  induction ops generalizing w with
  | nil => exact hrows
  | cons op ops ih =>
      obtain ⟨g1, g2, g3⟩ := csv_apply_inv rate start w op hs hg hrows
      exact ih (csv_apply w op) g1 g2 g3

/-- C3: after any sequence of `add_data_block` / `update_filename`
interactions on a fresh writer, the rows across all segment files, in
emission order, carry exactly the timestamps
`start + k / sample_rate` for `k = 0, 1, …` — so a row's global index always
decodes to the fixed start instant plus `k / sample_rate` — the number of
rows equals the global sample counter (one increment per row), and a
rotation (`update_filename`) changes neither the counter nor the emitted
rows. -/
theorem csv_timestamps_continuous (channels rate : ℕ) (start : ℚ)
    (ops : List CSVOp) :
    ((ops.foldl csv_apply (CSVWriter.init channels rate start)).allRows).map
        Prod.fst
      = (List.range
          (ops.foldl csv_apply
            (CSVWriter.init channels rate start)).globalSampleCount).map
          (rowTimestamp start rate)
      ∧ ((ops.foldl csv_apply (CSVWriter.init channels rate start)).allRows).length
        = (ops.foldl csv_apply
            (CSVWriter.init channels rate start)).globalSampleCount
      ∧ (∀ v : CSVWriter,
          v.update_filename.globalSampleCount = v.globalSampleCount
            ∧ v.update_filename.allRows = v.allRows) := by
  have hmain := csv_foldl_inv ops rate start (CSVWriter.init channels rate start)
    rfl rfl (by simp [CSVWriter.init, CSVWriter.allRows])
  refine ⟨hmain, ?_, ?_⟩
  · have := congrArg List.length hmain
    simpa using this
  · intro v
    constructor
    · rfl
    · simp [CSVWriter.update_filename, CSVWriter.allRows]

/-! ### Claim theorems for the control surface and preview gating -/

/-- C10: `update_realtime_data` always advances the data counter by the
batch length; when no `/data` request happened within the previous
`DATA_REQUEST_TIMEOUT = 5` seconds the preview buffer is left completely
unchanged; when one did, the batch is appended (trimmed to the newest 10000
values). A `/data` request records its instant for this gating. -/
theorem update_realtime_data_gating (now : ℚ) (st : AppState)
    (data : List ℚ) :
    (update_realtime_data now st data).dataCounter
        = st.dataCounter + data.length
      ∧ (¬ now - st.lastDataRequestTime < DATA_REQUEST_TIMEOUT →
          (update_realtime_data now st data).realtimeData = st.realtimeData)
      ∧ (now - st.lastDataRequestTime < DATA_REQUEST_TIMEOUT →
          (update_realtime_data now st data).realtimeData
            = (if 10000 < (st.realtimeData ++ data).length
                then (st.realtimeData ++ data).drop
                  ((st.realtimeData ++ data).length - 10000)
                else st.realtimeData ++ data))
      ∧ (get_data_route now st).1.lastDataRequestTime = now := by
  refine ⟨?_, ?_, ?_, rfl⟩
  · by_cases hc : now - st.lastDataRequestTime < DATA_REQUEST_TIMEOUT <;>
      simp [update_realtime_data, hc]
  · intro hc
    simp [update_realtime_data, hc]
  · intro hc
    simp [update_realtime_data, hc]

/-- Witness for C10 at `now = 10` with last request at `0` (stale) and a
batch of three values. -/
theorem update_realtime_data_gating_witness :
    (update_realtime_data 10 ⟨true, [7], 4, 0, 9, 0, true, true⟩
        [1, 2, 3]).dataCounter
        = (⟨true, [7], 4, 0, 9, 0, true, true⟩ : AppState).dataCounter
            + [(1 : ℚ), 2, 3].length
      ∧ (¬ (10 : ℚ) -
            (⟨true, [7], 4, 0, 9, 0, true, true⟩ :
              AppState).lastDataRequestTime < DATA_REQUEST_TIMEOUT →
          (update_realtime_data 10 ⟨true, [7], 4, 0, 9, 0, true, true⟩
            [1, 2, 3]).realtimeData
            = (⟨true, [7], 4, 0, 9, 0, true, true⟩ : AppState).realtimeData)
      ∧ ((10 : ℚ) -
            (⟨true, [7], 4, 0, 9, 0, true, true⟩ :
              AppState).lastDataRequestTime < DATA_REQUEST_TIMEOUT →
          (update_realtime_data 10 ⟨true, [7], 4, 0, 9, 0, true, true⟩
            [1, 2, 3]).realtimeData
            = (if 10000 <
                  (((⟨true, [7], 4, 0, 9, 0, true, true⟩ :
                    AppState).realtimeData ++ [1, 2, 3]).length)
                then ((⟨true, [7], 4, 0, 9, 0, true, true⟩ :
                    AppState).realtimeData ++ [1, 2, 3]).drop
                  ((((⟨true, [7], 4, 0, 9, 0, true, true⟩ :
                    AppState).realtimeData ++ [1, 2, 3]).length) - 10000)
                else (⟨true, [7], 4, 0, 9, 0, true, true⟩ :
                    AppState).realtimeData ++ [1, 2, 3]))
      ∧ (get_data_route 10
          ⟨true, [7], 4, 0, 9, 0, true, true⟩).1.lastDataRequestTime = 10 :=
  update_realtime_data_gating 10 ⟨true, [7], 4, 0, 9, 0, true, true⟩ [1, 2, 3]

/-- C8: the three user/control rejection paths — `start` while already
collecting, `start` with a missing label, `stop` while idle — each return a
failure result with a non-empty descriptive message and leave the
application state exactly as it was (no acquisition state is mutated). -/
theorem control_rejections_pure (env : StartEnv) (label : String)
    (st : AppState) :
    (st.isCollecting = true →
        start_collection env label st = ((false, "資料收集已在執行中"), st)
          ∧ "資料收集已在執行中" ≠ "")
      ∧ (st.isCollecting = false → label = "" →
          start_collection env label st = ((false, "請提供資料標籤"), st)
            ∧ "請提供資料標籤" ≠ "")
      ∧ (st.isCollecting = false →
          stop_collection st = ((false, "資料收集未在執行中"), st)
            ∧ "資料收集未在執行中" ≠ "") := by
  refine ⟨?_, ?_, ?_⟩
  · intro hc
    exact ⟨by simp [start_collection, hc], by decide⟩
  · intro hc hl
    exact ⟨by simp [start_collection, hc, hl], by decide⟩
  · intro hc
    exact ⟨by simp [stop_collection, hc], by decide⟩

/-- Witness for C8 on an idle state with an empty label. -/
theorem control_rejections_pure_witness :
    ((⟨false, [7], 4, 0, 9, 0, true, true⟩ : AppState).isCollecting = true →
        start_collection ⟨true, 5, 7812⟩ ""
            ⟨false, [7], 4, 0, 9, 0, true, true⟩
          = ((false, "資料收集已在執行中"), ⟨false, [7], 4, 0, 9, 0, true, true⟩)
          ∧ "資料收集已在執行中" ≠ "")
      ∧ ((⟨false, [7], 4, 0, 9, 0, true, true⟩ : AppState).isCollecting = false →
          ("" : String) = "" →
          start_collection ⟨true, 5, 7812⟩ ""
              ⟨false, [7], 4, 0, 9, 0, true, true⟩
            = ((false, "請提供資料標籤"), ⟨false, [7], 4, 0, 9, 0, true, true⟩)
            ∧ "請提供資料標籤" ≠ "")
      ∧ ((⟨false, [7], 4, 0, 9, 0, true, true⟩ : AppState).isCollecting = false →
          stop_collection ⟨false, [7], 4, 0, 9, 0, true, true⟩
            = ((false, "資料收集未在執行中"), ⟨false, [7], 4, 0, 9, 0, true, true⟩)
            ∧ "資料收集未在執行中" ≠ "") :=
  control_rejections_pure ⟨true, 5, 7812⟩ "" ⟨false, [7], 4, 0, 9, 0, true, true⟩

/-! ### Claim theorems for request sizing and segmentation -/

/-- C4 counterexample: with a reported remaining length of 4 words the
driver requests all 4 words — `min 4 123 = 4` — which is not a multiple of
the channel count 3, so a partial sample group *is* requested; the claimed
round-down to `3` does not happen. -/
theorem read_request_not_rounded_cex :
    read_raw_block_count 4 = 4
      ∧ ¬ CHANNEL_COUNT ∣ read_raw_block_count 4
      ∧ read_raw_block_count 4 / CHANNEL_COUNT * CHANNEL_COUNT
          ≠ read_raw_block_count 4 := by
  decide

/-- C4 amended: the per-iteration request size is
`min fifoLen MAX_DATA_WORDS`, with no rounding to a multiple of the channel
count — a partial sample group may be requested — while alignment is
enforced downstream: the converted batch always has length divisible by the
channel count, so a partial group is never forwarded. -/
theorem read_request_clamp_alignment (fifoLen : ℕ) (raw : List ℕ) :
    read_raw_block_count fifoLen = min fifoLen MAX_DATA_WORDS
      ∧ CHANNEL_COUNT ∣ (convert_raw_to_float_samples raw).length := by
  refine ⟨rfl, ?_⟩
  rw [convert_raw_eq_take_map]
  have hc : raw.length / CHANNEL_COUNT * CHANNEL_COUNT ≤ raw.length :=
    Nat.div_mul_le_self _ _
  rw [List.length_map, List.length_take, Nat.min_eq_left hc]
  exact dvd_mul_left CHANNEL_COUNT (raw.length / CHANNEL_COUNT)

/-- C1 evaluated at the failing input: `target_size = 2`, fresh state, one
batch `[1, 2, 3, 4, 5]` (flattened length 5, spanning two segment
boundaries). The code writes the slice `data[:2]` twice — segments
`[1, 2]` and `[1, 2]` — then `data[2:]`, a total of 7 values for 5 inputs,
with the first two values duplicated and `current_data_size` left at 3. -/
theorem collection_loop_double_write_eval :
    collection_loop_batch 2 (⟨[], []⟩, 0) [1, 2, 3, 4, 5]
        = (⟨[[1, 2], [1, 2]], [3, 4, 5]⟩, 3)
      ∧ segTotal (collection_loop_batch 2 (⟨[], []⟩, 0) [1, 2, 3, 4, 5]).1 = 7
      ∧ ([(1 : ℚ), 2, 3, 4, 5]).length = 5 := by
  have h1 : seg_loop 2 2 [1, 2, 3, 4, 5] ⟨[], []⟩ 5
      = seg_loop 2 2 [1, 2, 3, 4, 5] ⟨[[1, 2]], []⟩ 3 := by
    rw [seg_loop]
    norm_num [pySliceTo, segWrite, segRotate,
      show ((2 : ℤ).toNat = 2) from rfl]
  have h2 : seg_loop 2 2 [1, 2, 3, 4, 5] ⟨[[1, 2]], []⟩ 3
      = seg_loop 2 2 [1, 2, 3, 4, 5] ⟨[[1, 2], [1, 2]], []⟩ 1 := by
    rw [seg_loop]
    norm_num [pySliceTo, segWrite, segRotate,
      show ((2 : ℤ).toNat = 2) from rfl]
  have h3 : seg_loop 2 2 [1, 2, 3, 4, 5] ⟨[[1, 2], [1, 2]], []⟩ 1
      = (⟨[[1, 2], [1, 2]], []⟩, 1) := by
    rw [seg_loop]
    norm_num
  refine ⟨?_, ?_, rfl⟩
  · show collection_loop_batch 2 (⟨[], []⟩, 0) [1, 2, 3, 4, 5]
      = (⟨[[1, 2], [1, 2]], [3, 4, 5]⟩, 3)
    unfold collection_loop_batch
    norm_num [h1, h2, h3, pySliceFrom, segWrite,
      show ((2 : ℤ).toNat = 2) from rfl]
  · show segTotal (collection_loop_batch 2 (⟨[], []⟩, 0) [1, 2, 3, 4, 5]).1 = 7
    unfold collection_loop_batch
    norm_num [h1, h2, h3, pySliceFrom, segWrite, segTotal,
      show ((2 : ℤ).toNat = 2) from rfl]

end ProWave
